import Mathlib

/-!
Verification of the CollabBoard spatial layout service and deterministic
command router (`app/services/layout_service.py`, `app/agent/agent.py`).

Board coordinates are modelled over ℚ (the Python code uses floats, but all
operations verified here are order/arithmetic comparisons, min/max clamping
and ring scans that are exact over the rationals).  Board objects are
modelled as records of optional fields, mirroring the `dict.get(key,
default)` accesses of the source.
-/

namespace CollabBoard

/-- Canvas bounds, `CANVAS_WIDTH` in `layout_service.py`. -/
def CANVAS_WIDTH : Int := 4000

/-- Canvas bounds, `CANVAS_HEIGHT` in `layout_service.py`. -/
def CANVAS_HEIGHT : Int := 3000

/-- Axis-aligned bounding box, the `BBox` dataclass. -/
structure BBox where
  x : ℚ
  y : ℚ
  width : ℚ
  height : ℚ
  deriving DecidableEq

/-- `BBox.right`. -/
def BBox.right (b : BBox) : ℚ := b.x + b.width

/-- `BBox.bottom`. -/
def BBox.bottom (b : BBox) : ℚ := b.y + b.height

/-- `BBox.overlaps(self, other, padding)` from the source, as a Bool. -/
def BBox.overlaps (a other : BBox) (padding : ℚ) : Bool :=
  !(decide (a.right + padding ≤ other.x) || decide (other.right + padding ≤ a.x)
    || decide (a.bottom + padding ≤ other.y) || decide (other.bottom + padding ≤ a.y))

/-- A board object: the flat dict consumed by the layout service and router.
Fields are `Option`s because the Python code reads them with
`obj.get(key, default)`; a `none` models a missing key. -/
structure BoardObj where
  id : Option String := none
  type : Option String := none
  x : Option ℚ := none
  y : Option ℚ := none
  width : Option ℚ := none
  height : Option ℚ := none
  deriving DecidableEq

/-- `_extract_bboxes`: drop connectors, default x/y to 0 and width/height
to 200. -/
def extract_bboxes (board_state : List BoardObj) : List BBox :=
  board_state.filterMap fun obj =>
    if obj.type = some "connector" then none
    else some ⟨obj.x.getD 0, obj.y.getD 0, obj.width.getD 200, obj.height.getD 200⟩

/-- Result dict of `get_board_bounds`. -/
structure Bounds where
  min_x : ℚ
  min_y : ℚ
  max_x : ℚ
  max_y : ℚ
  total_width : ℚ
  total_height : ℚ
  object_count : Nat
  deriving DecidableEq

/-- `get_board_bounds`: minimal enclosing rectangle of the extracted boxes,
all zeros on an (effectively) empty board. -/
def get_board_bounds (board_state : List BoardObj) : Bounds :=
  match extract_bboxes board_state with
  | [] => ⟨0, 0, 0, 0, 0, 0, 0⟩
  | b :: rest =>
    let boxes := b :: rest
    let min_x := boxes.foldl (fun a c => min a c.x) b.x
    let min_y := boxes.foldl (fun a c => min a c.y) b.y
    let max_x := boxes.foldl (fun a c => max a c.right) b.right
    let max_y := boxes.foldl (fun a c => max a c.bottom) b.bottom
    ⟨min_x, min_y, max_x, max_y, max_x - min_x, max_y - min_y, boxes.length⟩

/-- The inner `clamp` closure shared by `find_open_position` and
`find_insert_position`: clamp into `[0, CANVAS_WIDTH-w] × [0, CANVAS_HEIGHT-h]`. -/
def clampPos (w h x y : ℚ) : ℚ × ℚ :=
  (max 0 (min x ((CANVAS_WIDTH : ℚ) - w)), max 0 (min y ((CANVAS_HEIGHT : ℚ) - h)))

/-- `find_open_position(board_state, needed_width, needed_height, padding=40,
prefer="right")`. -/
def find_open_position (board_state : List BoardObj) (needed_width needed_height : ℚ)
    (padding : ℚ := 40) (prefer : String := "right") : ℚ × ℚ :=
  match extract_bboxes board_state with
  | [] => (100, 100)
  | _ :: _ =>
    let bounds := get_board_bounds board_state
    if prefer = "right" then
      clampPos needed_width needed_height (bounds.max_x + padding) bounds.min_y
    else if prefer = "below" then
      clampPos needed_width needed_height bounds.min_x (bounds.max_y + padding)
    else
      let board_w := bounds.max_x - bounds.min_x
      let board_h := bounds.max_y - bounds.min_y
      if board_w ≤ board_h then
        clampPos needed_width needed_height (bounds.max_x + padding) bounds.min_y
      else
        clampPos needed_width needed_height bounds.min_x (bounds.max_y + padding)

/-- The ring-scan offsets of `find_insert_position`: for each `distance` in
`1..19`, the five offsets right, below, left, above, diagonal (in source
order). -/
def ringProbes (step : ℚ) : List (ℚ × ℚ) :=
  (List.range' 1 19).flatMap fun d =>
    let ds : ℚ := (d : ℚ)
    [(ds * step, 0), (0, ds * step), (-(ds * step), 0), (0, -(ds * step)), (ds * step, ds * step)]

/-- `max((b.right for b in bboxes), default=0)`. -/
def maxRightD : List BBox → ℚ
  | [] => 0
  | b :: rest => rest.foldl (fun a c => max a c.right) b.right

/-- `find_insert_position(board_state, target_x, target_y, item_width,
item_height, padding=20)`: clamped target first, then the expanding ring
scan, then the far-right fallback. -/
def find_insert_position (board_state : List BoardObj) (target_x target_y : ℚ)
    (item_width item_height : ℚ) (padding : ℚ := 20) : ℚ × ℚ :=
  let bboxes := extract_bboxes board_state
  let t := clampPos item_width item_height target_x target_y
  if !(bboxes.any fun b => (BBox.mk t.1 t.2 item_width item_height).overlaps b padding) then t
  else
    let step := item_width + padding
    let found := (ringProbes step).findSome? fun d =>
      let n := clampPos item_width item_height (t.1 + d.1) (t.2 + d.2)
      if !(bboxes.any fun b => (BBox.mk n.1 n.2 item_width item_height).overlaps b padding) then
        some n
      else none
    match found with
    | some p => p
    | none => clampPos item_width item_height (maxRightD bboxes + padding) t.2

/-- Python `int()` applied to a rational: truncation toward zero. -/
def pyInt (q : ℚ) : Int := if 0 ≤ q then q.floor else q.ceil

/-- Insertion-ordered counting dict (`type_counts[t] = type_counts.get(t, 0) + 1`). -/
def bumpCount : List (String × Nat) → String → List (String × Nat)
  | [], t => [(t, 1)]
  | (k, c) :: rest, t =>
    if k = t then (k, c + 1) :: rest else (k, c) :: bumpCount rest t

/-- `describe_board_layout`: the human-readable layout summary handed to the
LLM, including the fixed empty-board instruction string. -/
def describe_board_layout (board_state : List BoardObj) : String :=
  match extract_bboxes board_state with
  | [] =>
    "The board is empty (canvas is " ++ toString CANVAS_WIDTH ++ "x" ++
      toString CANVAS_HEIGHT ++
      "px). You can place objects starting at position (100, 100)."
  | b0 :: brest =>
    let bboxes := b0 :: brest
    let bounds := get_board_bounds board_state
    let mid_x := (bounds.min_x + bounds.max_x) / 2
    let mid_y := (bounds.min_y + bounds.max_y) / 2
    let isLeft := fun (b : BBox) => decide (b.x + b.width / 2 < mid_x)
    let isTop := fun (b : BBox) => decide (b.y + b.height / 2 < mid_y)
    let regions : List (String × Nat) :=
      [("top-left", bboxes.countP fun b => isTop b && isLeft b),
       ("top-right", bboxes.countP fun b => isTop b && !(isLeft b)),
       ("bottom-left", bboxes.countP fun b => !(isTop b) && isLeft b),
       ("bottom-right", bboxes.countP fun b => !(isTop b) && !(isLeft b))]
    let type_counts := board_state.foldl
      (fun m obj =>
        let t := obj.type.getD "unknown"
        if t = "connector" then m else bumpCount m t) []
    let types_desc := String.intercalate ", "
      (type_counts.map fun kc =>
        toString kc.2 ++ " " ++ kc.1 ++ (if kc.2 > 1 then "s" else ""))
    let occupied_desc :=
      "Objects occupy the area from (" ++ toString (pyInt bounds.min_x) ++ ", " ++
        toString (pyInt bounds.min_y) ++ ") to (" ++ toString (pyInt bounds.max_x) ++
        ", " ++ toString (pyInt bounds.max_y) ++ ") (" ++
        toString (pyInt bounds.total_width) ++ "px wide x " ++
        toString (pyInt bounds.total_height) ++ "px tall)."
    let open_desc :=
      "Free space available: to the RIGHT starting at x=" ++
        toString (pyInt (bounds.max_x + 40)) ++ ", or BELOW starting at y=" ++
        toString (pyInt (bounds.max_y + 40)) ++ "."
    let n := bboxes.length
    let dense_regions := (regions.filter fun rc => decide ((rc.2 : ℚ) > (n : ℚ) / 4)).map (·.1)
    let sparse_regions := (regions.filter fun rc => rc.2 == 0).map (·.1)
    let density_desc :=
      (if dense_regions.isEmpty then ""
       else " Most objects are in the " ++ String.intercalate ", " dense_regions ++ " area.") ++
      (if sparse_regions.isEmpty then ""
       else " The " ++ String.intercalate ", " sparse_regions ++ " area is empty.")
    "Board canvas is " ++ toString CANVAS_WIDTH ++ "x" ++ toString CANVAS_HEIGHT ++
      "px. Board has " ++ toString n ++ " objects (" ++ types_desc ++ "). " ++
      occupied_desc ++ " " ++ open_desc ++ density_desc

/-! ## Deterministic command router (`app/agent/agent.py`)

The Python router matches commands against compiled regular expressions.
Each regex below is embedded as a deterministic recursive parser over
`List Char`.  The only quantified subpatterns in these regexes are
character-class runs (so greedy matching is maximal munch), and at every
alternation / optional group the alternatives are pairwise incompatible on
their leading literal characters, so ordered-backtracking semantics reduce
to the committed first-match parsing implemented here; the few places where
a failing continuation forces genuine backtracking (the optional
`note`/connective groups of the sticky pattern) are retried explicitly.
Case-insensitive patterns compare lowered characters; captured keyword
groups are returned already lowercased, matching the `.lower()` the route
applies to them. -/

/-- Python regex `\s` / `str.strip()` whitespace (ASCII part). -/
def isPySpace (c : Char) : Bool :=
  c == ' ' || c == '\t' || c == '\n' || c == '\r' || c == '\x0b' || c == '\x0c'

/-- The char class `["\']`. -/
def isQuote (c : Char) : Bool := c == '\'' || c == '"'

/-- Python regex `\w` (ASCII part). -/
def isWordChar (c : Char) : Bool := c.isAlphanum || c == '_'

/-- Drop a literal, case-sensitively; `none` if it is not a prefix. -/
def dropLit : List Char → List Char → Option (List Char)
  | [], cs => some cs
  | _ :: _, [] => none
  | l :: ls, c :: cs => if c = l then dropLit ls cs else none

/-- Drop a literal given in lowercase, case-insensitively (re.IGNORECASE). -/
def dropLitCI : List Char → List Char → Option (List Char)
  | [], cs => some cs
  | _ :: _, [] => none
  | l :: ls, c :: cs => if c.toLower = l then dropLitCI ls cs else none

/-- `\s+` (maximal munch; every follower in the embedded patterns starts
with a non-space character, so no backtracking is needed). -/
def dropSpaces1 (cs : List Char) : Option (List Char) :=
  match cs with
  | c :: rest => if isPySpace c then some (rest.dropWhile isPySpace) else none
  | [] => none

/-- Strip characters satisfying `p` from both ends. -/
def stripSet (p : Char → Bool) (cs : List Char) : List Char :=
  ((cs.dropWhile p).reverse.dropWhile p).reverse

/-- Python `str.strip()`. -/
def stripChars (cs : List Char) : List Char := stripSet isPySpace cs

/-- Python `$` (with no preceding `\s*`): end of string, or just before a
single trailing newline. -/
def endDollar (cs : List Char) : Bool := cs.isEmpty || cs == ['\n']

/-- `_FIT_VIEW_RE`: `^(?:fit\s+(?:view|to\s+screen|everything)|zoom\s+to\s+fit|show\s+all|see\s+everything)$`, IGNORECASE. -/
def fitMatch (cs : List Char) : Bool :=
  let fin := fun (r : Option (List Char)) => (r.map endDollar).getD false
  fin (((dropLitCI "fit".data cs).bind dropSpaces1).bind fun r => dropLitCI "view".data r)
  || fin (((((dropLitCI "fit".data cs).bind dropSpaces1).bind
        fun r => dropLitCI "to".data r).bind dropSpaces1).bind fun r => dropLitCI "screen".data r)
  || fin (((dropLitCI "fit".data cs).bind dropSpaces1).bind fun r => dropLitCI "everything".data r)
  || fin (((((dropLitCI "zoom".data cs).bind dropSpaces1).bind
        fun r => dropLitCI "to".data r).bind dropSpaces1).bind fun r => dropLitCI "fit".data r)
  || fin (((dropLitCI "show".data cs).bind dropSpaces1).bind fun r => dropLitCI "all".data r)
  || fin (((dropLitCI "see".data cs).bind dropSpaces1).bind fun r => dropLitCI "everything".data r)

/-- `_DELETE_RE`: `^(?:delete|remove)\s+(?:this|it|that|the\s+\w+)\s*$`, IGNORECASE. -/
def deleteMatch (cs : List Char) : Bool :=
  match (dropLitCI "delete".data cs <|> dropLitCI "remove".data cs).bind dropSpaces1 with
  | none => false
  | some r2 =>
    (match dropLitCI "this".data r2 with | some r3 => r3.all isPySpace | none => false)
    || (match dropLitCI "it".data r2 with | some r3 => r3.all isPySpace | none => false)
    || (match dropLitCI "that".data r2 with | some r3 => r3.all isPySpace | none => false)
    || (match (dropLitCI "the".data r2).bind dropSpaces1 with
        | some r4 =>
          !(r4.takeWhile isWordChar).isEmpty && (r4.dropWhile isWordChar).all isPySpace
        | none => false)

/-- The color alternation `yellow|blue|green|red|purple|orange|pink|white`
(source order); returns the lowercased keyword and the rest. -/
def findColorKw (cs : List Char) : Option (String × List Char) :=
  ["yellow", "blue", "green", "red", "purple", "orange", "pink", "white"].findSome?
    fun kw => (dropLitCI kw.data cs).map fun rest => (kw, rest)

/-- `_RECOLOR_RE`: `^(?:make\s+(?:it|this)|change\s+(?:it\s+)?(?:to|into)|set\s+(?:it\s+)?(?:color\s+)?to)\s+(?P<color>yellow|...|white)\s*$`, IGNORECASE;
returns the lowercased color keyword. -/
def recolorParse (cs : List Char) : Option String :=
  let heads : Option (List Char) :=
    (match (dropLitCI "make".data cs).bind dropSpaces1 with
     | some r => dropLitCI "it".data r <|> dropLitCI "this".data r
     | none => none)
    <|>
    (match (dropLitCI "change".data cs).bind dropSpaces1 with
     | some r =>
       let r2 := match (dropLitCI "it".data r).bind dropSpaces1 with
         | some v => v
         | none => r
       dropLitCI "to".data r2 <|> dropLitCI "into".data r2
     | none => none)
    <|>
    (match (dropLitCI "set".data cs).bind dropSpaces1 with
     | some r =>
       let r2 := match (dropLitCI "it".data r).bind dropSpaces1 with
         | some v => v
         | none => r
       let r3 := match (dropLitCI "color".data r2).bind dropSpaces1 with
         | some v => v
         | none => r2
       dropLitCI "to".data r3
     | none => none)
  match heads.bind dropSpaces1 with
  | none => none
  | some r =>
    match findColorKw r with
    | some p => if p.2.all isPySpace then some p.1 else none
    | none => none

/-- `_SELECTED_OBJ_RE` (DOTALL, case-sensitive):
`^\[Selected object: id=([^,\]]+),\s*type=([^,\]]+)(?:,\s*text="([^"]*)")?\]\s*(.+)$`.
Returns `(id, type, rest.strip())` — the `.strip()` applied by the route to
the rest group is folded in, and a rest consisting only of whitespace is
reported as no-match (the route behaves identically in both cases). -/
def selParse (cs : List Char) : Option (String × String × List Char) :=
  let takeNotCB := fun (u : List Char) => u.takeWhile fun c => !(c == ',' || c == ']')
  let dropNotCB := fun (u : List Char) => u.dropWhile fun c => !(c == ',' || c == ']')
  match dropLit "[Selected object: id=".data cs with
  | none => none
  | some r1 =>
    if (takeNotCB r1).isEmpty then none
    else
      match dropNotCB r1 with
      | ',' :: r3 =>
        match dropLit "type=".data (r3.dropWhile isPySpace) with
        | none => none
        | some r5 =>
          if (takeNotCB r5).isEmpty then none
          else
            let after : Option (List Char) :=
              match dropNotCB r5 with
              | ']' :: r7 => some r7
              | ',' :: r7 =>
                match dropLit "text=\"".data (r7.dropWhile isPySpace) with
                | none => none
                | some r9 =>
                  match r9.dropWhile fun c => !(c == '"') with
                  | '"' :: ']' :: r11 => some r11
                  | _ => none
              | _ => none
            match after with
            | some r7 =>
              let rest := stripChars r7
              if rest.isEmpty then none
              else some (String.mk (takeNotCB r1), String.mk (takeNotCB r5), rest)
            | none => none
      | _ => none

/-- The tail `\s*["\']?(?P<text>.+?)["\']?$` of `_STICKY_RE` (text is lazy,
`.` excludes newline, `$` allows one trailing newline).  Resolved
deterministically: maximal whitespace munch, prefer consuming the optional
quotes, minimal text; a raw text that would be empty is reported as
no-match — the route strips it to the empty string and falls through in
exactly the same way. -/
def rawText (u : List Char) : Option (List Char) :=
  let u1 := u.dropWhile isPySpace
  let u2 := match u1 with
    | c :: rest => if isQuote c then rest else u1
    | [] => u1
  let v := u2.reverse
  let v1 := match v with
    | '\n' :: tl => tl
    | _ => v
  let v2 := match v1 with
    | c :: tl => if isQuote c then tl else v1
    | [] => v1
  let t := v2.reverse
  if t.isEmpty || t.any (· == '\n') then none else some t

/-- The optional connective `(?:saying|with\s+text|that\s+says|titled|:)?`. -/
def connectiveDrop (v : List Char) : Option (List Char) :=
  dropLitCI "saying".data v
  <|> ((dropLitCI "with".data v).bind dropSpaces1).bind (fun r => dropLitCI "text".data r)
  <|> ((dropLitCI "that".data v).bind dropSpaces1).bind (fun r => dropLitCI "says".data r)
  <|> dropLitCI "titled".data v
  <|> dropLitCI ":".data v

/-- Try the connective, retrying without it if the tail then fails
(Python's backtracking over the optional group). -/
def afterConnective (v : List Char) : Option (List Char) :=
  match connectiveDrop v with
  | some r =>
    match rawText r with
    | some t => some t
    | none => rawText v
  | none => rawText v

/-- `_STICKY_RE`:
`^(?:create|add|make|put)\s+(?:a\s+)?(?:(?P<color>yellow|...|white)\s+)?sticky\s*(?:note\s*)?(?:saying|with\s+text|that\s+says|titled|:)?\s*["\']?(?P<text>.+?)["\']?$`,
IGNORECASE.  Returns the lowercased color keyword (if captured) and the raw
text group. -/
def stickyParse (cs : List Char) : Option (Option String × List Char) :=
  let verb := dropLitCI "create".data cs <|> dropLitCI "add".data cs
    <|> dropLitCI "make".data cs <|> dropLitCI "put".data cs
  match verb.bind dropSpaces1 with
  | none => none
  | some r0 =>
    let r1 := match (dropLitCI "a".data r0).bind dropSpaces1 with
      | some v => v
      | none => r0
    let colorAnd : Option String × List Char :=
      match findColorKw r1 with
      | some p =>
        match dropSpaces1 p.2 with
        | some r2 => (some p.1, r2)
        | none => (none, r1)
      | none => (none, r1)
    match dropLitCI "sticky".data colorAnd.2 with
    | none => none
    | some rs =>
      let u0 := rs.dropWhile isPySpace
      let res := match dropLitCI "note".data u0 with
        | some rn =>
          match afterConnective (rn.dropWhile isPySpace) with
          | some t => some t
          | none => afterConnective u0
        | none => afterConnective u0
      match res with
      | some t => some (colorAnd.1, t)
      | none => none

/-- `_COLOR_MAP` from `agent.py`. -/
def COLOR_MAP : List (String × String) :=
  [("yellow", "#FEF08A"), ("blue", "#93C5FD"), ("green", "#86EFAC"),
   ("red", "#FCA5A5"), ("purple", "#DDD6FE"), ("orange", "#FED7AA"),
   ("pink", "#FECACA"), ("white", "#FFFFFF")]

/-- `_COLOR_MAP.get(color_kw, "#FEF08A")`. -/
def colorGet (k : String) : String := (COLOR_MAP.lookup k).getD "#FEF08A"

/-- The `props` dict of a `BoardAction`; `none` models an absent key. -/
structure Props where
  text : Option String := none
  x : Option Int := none
  y : Option Int := none
  width : Option Int := none
  height : Option Int := none
  color : Option String := none
  fill : Option String := none
  font_size : Option Int := none
  rotation : Option Int := none
  deriving DecidableEq

/-- A board action emitted by the router. -/
structure BoardAction where
  action : String
  object_type : String
  temp_id : Option String := none
  object_id : Option String := none
  props : Props := {}
  deriving DecidableEq

/-- The result dict returned by `try_deterministic_route` on a match. -/
structure RouteResult where
  message : String
  actions : List BoardAction
  actions_performed : List String
  trace_id : String
  fit_to_view : Bool
  deriving DecidableEq

/-- The selected-object context extraction at the top of
`try_deterministic_route`: `(selected_id, selected_type, cmd)` after
stripping the command and, if present, the `[Selected object: ...]`
marker. -/
def selInfo (command : String) : String × String × List Char :=
  match selParse (stripChars command.data) with
  | some p => p
  | none => ("", "", stripChars command.data)

/-- `try_deterministic_route(command, board_state, board_id, trace_id)`.
The fresh `uuid.uuid4().hex[:8]` used for the sticky `temp_id` is the only
nondeterminism in the source and is passed in as `uuid_hex8`. -/
def try_deterministic_route (command : String) (board_state : List BoardObj)
    (_board_id : String) (trace_id : String) (uuid_hex8 : String) : Option RouteResult :=
  let si := selInfo command
  let selected_id := si.1
  let selected_type := si.2.1
  let cmd := si.2.2
  if fitMatch cmd then
    some { message := "Zooming to fit everything on screen.", actions := [],
           actions_performed := ["fit_view"], trace_id := trace_id, fit_to_view := true }
  else
    let stickyRes : Option RouteResult :=
      match stickyParse cmd with
      | none => none
      | some pr =>
        let text := stripSet isQuote (stripChars pr.2)
        if text.isEmpty then none
        else
          let color_hex := colorGet (pr.1.getD "")
          let pos := find_open_position board_state 200 140 40 "right"
          let wht : Int × Int × Int :=
            if text.length ≤ 30 then (160, 100, 16)
            else if text.length ≤ 80 then (200, 140, 15)
            else if text.length ≤ 150 then (220, 180, 14)
            else (250, 220, 13)
          let preview := String.mk (text.take 40) ++ (if text.length > 40 then "..." else "")
          some { message := "Done! Created a sticky note: \"" ++ preview ++ "\"",
                 actions := [{ action := "create", object_type := "sticky",
                               temp_id := some ("sticky-" ++ uuid_hex8),
                               props := { text := some (String.mk text),
                                          x := some (pyInt pos.1), y := some (pyInt pos.2),
                                          width := some wht.1, height := some wht.2.1,
                                          color := some color_hex, font_size := some wht.2.2,
                                          rotation := some 0 } }],
                 actions_performed := ["create_sticky_note: sticky"],
                 trace_id := trace_id, fit_to_view := false }
    match stickyRes with
    | some r => some r
    | none =>
      if selected_id ≠ "" then
        if deleteMatch cmd then
          some { message := "Done! Deleted the object.",
                 actions := [{ action := "delete",
                               object_type := if selected_type = "" then "sticky" else selected_type,
                               object_id := some selected_id }],
                 actions_performed := ["delete_object"], trace_id := trace_id,
                 fit_to_view := false }
        else
          match recolorParse cmd with
          | some ckw =>
            some { message := "Done! Changed the color to " ++ ckw ++ ".",
                   actions := [{ action := "update",
                                 object_type := if selected_type = "" then "sticky" else selected_type,
                                 object_id := some selected_id,
                                 props := { color := some (colorGet ckw),
                                            fill := some (colorGet ckw) } }],
                   actions_performed := ["update_object"], trace_id := trace_id,
                   fit_to_view := false }
          | none => none
      else none

/-! ## Helper lemmas -/

theorem clampPos_bounds (w h x y : ℚ) (hw : w ≤ (CANVAS_WIDTH : ℚ)) (hh : h ≤ (CANVAS_HEIGHT : ℚ)) :
    0 ≤ (clampPos w h x y).1 ∧ (clampPos w h x y).1 ≤ (CANVAS_WIDTH : ℚ) - w ∧
    0 ≤ (clampPos w h x y).2 ∧ (clampPos w h x y).2 ≤ (CANVAS_HEIGHT : ℚ) - h := by
  unfold clampPos
  refine ⟨le_max_left 0 _, max_le ?_ (min_le_right _ _), le_max_left 0 _,
    max_le ?_ (min_le_right _ _)⟩
  · exact sub_nonneg.mpr hw
  · exact sub_nonneg.mpr hh

theorem extract_bboxes_eq_nil_of_connectors (bs : List BoardObj)
    (hconn : ∀ o ∈ bs, o.type = some "connector") : extract_bboxes bs = [] := by
  induction bs with
  | nil => rfl
  | cons o rest ih =>
    unfold extract_bboxes
    rw [List.filterMap_cons]
    simp only [hconn o (List.mem_cons_self o rest), if_pos rfl]
    exact ih fun o' ho' => hconn o' (List.mem_cons_of_mem _ ho')

theorem find_open_position_shape (bs : List BoardObj) (w h p : ℚ) (pref : String)
    (hne : extract_bboxes bs ≠ []) :
    ∃ a b, find_open_position bs w h p pref = clampPos w h a b := by
  unfold find_open_position
  cases hx : extract_bboxes bs with
  | nil => exact absurd hx hne
  | cons b0 rest =>
    by_cases h1 : pref = "right"
    · simp only [h1, if_pos rfl]
      exact ⟨_, _, rfl⟩
    · by_cases h2 : pref = "below"
      · simp only [if_neg h1, h2, if_pos rfl]
        exact ⟨_, _, rfl⟩
      · simp only [if_neg h1, if_neg h2]
        split
        · exact ⟨_, _, rfl⟩
        · exact ⟨_, _, rfl⟩

theorem find_insert_position_shape (bs : List BoardObj) (tx ty w h p : ℚ) :
    ∃ a b, find_insert_position bs tx ty w h p = clampPos w h a b := by
  unfold find_insert_position
  dsimp only
  split
  · exact ⟨tx, ty, rfl⟩
  · split
    · rename_i pr hpr
      obtain ⟨d, _, hfd⟩ := List.exists_of_findSome?_eq_some hpr
      split at hfd
      · exact ⟨_, _, (Option.some.injEq _ _ ▸ hfd).symm⟩
      · cases hfd
    · exact ⟨_, _, rfl⟩

theorem get_board_bounds_total_eq (bs : List BoardObj) (hne : extract_bboxes bs ≠ []) :
    (get_board_bounds bs).total_width
        = (get_board_bounds bs).max_x - (get_board_bounds bs).min_x ∧
      (get_board_bounds bs).total_height
        = (get_board_bounds bs).max_y - (get_board_bounds bs).min_y := by
  unfold get_board_bounds
  cases hx : extract_bboxes bs with
  | nil => exact absurd hx hne
  | cons b0 rest => exact ⟨rfl, rfl⟩

/-! ## Claims -/

/-- C9: for all bounding boxes A and B and every padding p,
`A.overlaps(B, p)` equals `B.overlaps(A, p)`. -/
theorem C9_overlaps_symm (A B : BBox) (p : ℚ) : A.overlaps B p = B.overlaps A p := by
  simp only [BBox.overlaps]
  have hx : (decide (A.right + p ≤ B.x) || decide (B.right + p ≤ A.x)
        || decide (A.bottom + p ≤ B.y) || decide (B.bottom + p ≤ A.y))
      = (decide (B.right + p ≤ A.x) || decide (A.right + p ≤ B.x)
        || decide (B.bottom + p ≤ A.y) || decide (A.bottom + p ≤ B.y)) := by
    cases hd1 : decide (A.right + p ≤ B.x) <;> cases hd2 : decide (B.right + p ≤ A.x) <;>
      cases hd3 : decide (A.bottom + p ≤ B.y) <;> cases hd4 : decide (B.bottom + p ≤ A.y) <;> rfl
  rw [hx]

/-- C6: routing `"create a blue sticky saying Hello World"` against an empty
board returns one `create` action for a `sticky` with color `#93C5FD`,
position (100, 100), size 160×100 and font size 16 (for any board id,
trace id and generated uuid suffix). -/
theorem C6_blue_sticky_scenario (bid tid u : String) :
    try_deterministic_route "create a blue sticky saying Hello World" [] bid tid u
      = some { message := "Done! Created a sticky note: \"Hello World\"",
               actions := [{ action := "create", object_type := "sticky",
                             temp_id := some ("sticky-" ++ u),
                             props := { text := some "Hello World", x := some 100, y := some 100,
                                        width := some 160, height := some 100,
                                        color := some "#93C5FD", font_size := some 16,
                                        rotation := some 0 } }],
               actions_performed := ["create_sticky_note: sticky"],
               trace_id := tid, fit_to_view := false } := by
  with_unfolding_all rfl

/-- C10: a board whose objects are all connectors is treated exactly like an
empty board: zero bounds with `object_count = 0`, `find_open_position`
returns (100, 100) for every size/padding/prefer, and
`describe_board_layout` returns the fixed empty-board string. -/
theorem C10_connectors_like_empty (bs : List BoardObj)
    (hconn : ∀ o ∈ bs, o.type = some "connector") :
    get_board_bounds bs = ⟨0, 0, 0, 0, 0, 0, 0⟩
    ∧ (∀ (w h p : ℚ) (pref : String), find_open_position bs w h p pref = (100, 100))
    ∧ describe_board_layout bs
        = "The board is empty (canvas is 4000x3000px). You can place objects starting at position (100, 100)." := by
  have he := extract_bboxes_eq_nil_of_connectors bs hconn
  refine ⟨?_, ?_, ?_⟩
  · unfold get_board_bounds
    rw [he]
  · intro w h p pref
    unfold find_open_position
    rw [he]
  · unfold describe_board_layout
    rw [he]
    with_unfolding_all rfl

/-- C10 witness: a concrete connector-only board. -/
theorem C10_connectors_like_empty_witness :
    get_board_bounds [{ type := some "connector", x := some 500, y := some 600 }] = ⟨0, 0, 0, 0, 0, 0, 0⟩
    ∧ find_open_position [{ type := some "connector", x := some 500, y := some 600 }] 137 93 7 "auto" = (100, 100)
    ∧ describe_board_layout [{ type := some "connector", x := some 500, y := some 600 }]
        = "The board is empty (canvas is 4000x3000px). You can place objects starting at position (100, 100)." := by
  have h := C10_connectors_like_empty
    [{ type := some "connector", x := some 500, y := some 600 }]
    (by intro o ho; simp at ho; rw [ho])
  exact ⟨h.1, h.2.1 137 93 7 "auto", h.2.2⟩

/-- C1 (amended): on a board with at least one non-connector object and
`prefer="right"`, the returned x is ≥ `max_x + padding` provided the
unclamped placement fits the canvas, i.e.
`max_x + padding ≤ CANVAS_WIDTH - needed_width` (the claim as stated fails
when the clamp truncates the placement; see the counterexample). -/
theorem C1_right_beyond_max_x (bs : List BoardObj) (nw nh p : ℚ)
    (hne : extract_bboxes bs ≠ [])
    (hfit : (get_board_bounds bs).max_x + p ≤ (CANVAS_WIDTH : ℚ) - nw) :
    (get_board_bounds bs).max_x + p ≤ (find_open_position bs nw nh p "right").1 := by
  unfold find_open_position
  cases hx : extract_bboxes bs with
  | nil => exact absurd hx hne
  | cons b0 rest =>
    dsimp only
    rw [if_pos (rfl : ("right" : String) = "right")]
    unfold clampPos
    dsimp only
    rw [min_eq_left hfit]
    exact le_max_right 0 _

/-- C1 witness: one 100×100 box at the origin, request 200×100 with
padding 40: the returned x is 140 = max_x + padding. -/
theorem C1_right_beyond_max_x_witness :
    extract_bboxes [{ x := some 0, y := some 0, width := some 100, height := some 100 }] ≠ []
    ∧ (get_board_bounds [{ x := some 0, y := some 0, width := some 100, height := some 100 }]).max_x + 40
        ≤ (find_open_position [{ x := some 0, y := some 0, width := some 100, height := some 100 }] 200 100 40 "right").1 :=
  ⟨by with_unfolding_all decide,
   C1_right_beyond_max_x [{ x := some 0, y := some 0, width := some 100, height := some 100 }]
     200 100 40 (by with_unfolding_all decide) (by with_unfolding_all decide)⟩

/-- C1 counterexample: a box at x=3900 of width 200 gives max_x = 4100;
requesting a 200-wide block with padding 40 clamps x to 3800 < 4140, so the
claimed `x ≥ max_x + padding` fails. -/
theorem C1_counterexample :
    ¬ ((get_board_bounds [{ x := some 3900, y := some 0, width := some 200, height := some 100 }]).max_x + 40
        ≤ (find_open_position [{ x := some 3900, y := some 0, width := some 200, height := some 100 }]
            200 150 40 "right").1) := by
  with_unfolding_all decide

/-- C8 (amended): with `prefer="auto"` on a non-empty board the right-hand
placement is chosen exactly when `total_width ≤ total_height` (taller than
wide OR exactly square), and the below placement otherwise; in particular a
square bounding rectangle places to the RIGHT, not below as claimed. -/
theorem C8_auto_choice (bs : List BoardObj) (w h p : ℚ) (hne : extract_bboxes bs ≠ []) :
    find_open_position bs w h p "auto"
      = if (get_board_bounds bs).total_width ≤ (get_board_bounds bs).total_height
        then clampPos w h ((get_board_bounds bs).max_x + p) (get_board_bounds bs).min_y
        else clampPos w h (get_board_bounds bs).min_x ((get_board_bounds bs).max_y + p) := by
  obtain ⟨htw, hth⟩ := get_board_bounds_total_eq bs hne
  rw [htw, hth]
  unfold find_open_position
  cases hx : extract_bboxes bs with
  | nil => exact absurd hx hne
  | cons b0 rest =>
    dsimp only
    rfl

/-- C8 witness: a 100×200 box (taller than wide) with `prefer="auto"`
places to the right. -/
theorem C8_auto_choice_witness :
    find_open_position [{ x := some 0, y := some 0, width := some 100, height := some 200 }] 50 50 40 "auto"
      = if (get_board_bounds [{ x := some 0, y := some 0, width := some 100, height := some 200 }]).total_width
            ≤ (get_board_bounds [{ x := some 0, y := some 0, width := some 100, height := some 200 }]).total_height
        then clampPos 50 50
          ((get_board_bounds [{ x := some 0, y := some 0, width := some 100, height := some 200 }]).max_x + 40)
          (get_board_bounds [{ x := some 0, y := some 0, width := some 100, height := some 200 }]).min_y
        else clampPos 50 50
          (get_board_bounds [{ x := some 0, y := some 0, width := some 100, height := some 200 }]).min_x
          ((get_board_bounds [{ x := some 0, y := some 0, width := some 100, height := some 200 }]).max_y + 40) :=
  C8_auto_choice [{ x := some 0, y := some 0, width := some 100, height := some 200 }] 50 50 40
    (by with_unfolding_all decide)

/-- C8 counterexample: a single 100×100 box has an exactly square bounding
rectangle (`total_width = total_height`); `prefer="auto"` returns the
right-hand placement (140, 0), not the below placement (0, 140) the claim
requires for a square board. -/
theorem C8_counterexample :
    (get_board_bounds [{ x := some 0, y := some 0, width := some 100, height := some 100 }]).total_width
        = (get_board_bounds [{ x := some 0, y := some 0, width := some 100, height := some 100 }]).total_height
    ∧ find_open_position [{ x := some 0, y := some 0, width := some 100, height := some 100 }] 50 50 40 "auto"
        = (140, 0)
    ∧ clampPos 50 50
        (get_board_bounds [{ x := some 0, y := some 0, width := some 100, height := some 100 }]).min_x
        ((get_board_bounds [{ x := some 0, y := some 0, width := some 100, height := some 100 }]).max_y + 40)
        = (0, 140)
    ∧ ((140 : ℚ), (0 : ℚ)) ≠ ((0 : ℚ), (140 : ℚ)) := by
  with_unfolding_all decide

/-- C2 (amended): the returned positions of `find_insert_position` (always)
and of `find_open_position` (on a board with a non-connector object) lie in
`[0, CANVAS_WIDTH-width] × [0, CANVAS_HEIGHT-height]` whenever the
requested size fits the canvas; on an effectively empty board
`find_open_position` returns the unclamped anchor (100, 100), which
satisfies the bounds exactly when `width ≤ CANVAS_WIDTH - 100` and
`height ≤ CANVAS_HEIGHT - 100` (the claim as stated fails there; see the
counterexample). -/
theorem C2_clamp_bounds :
    (∀ (bs : List BoardObj) (tx ty w h p : ℚ), w ≤ (CANVAS_WIDTH : ℚ) → h ≤ (CANVAS_HEIGHT : ℚ) →
      0 ≤ (find_insert_position bs tx ty w h p).1 ∧
        (find_insert_position bs tx ty w h p).1 ≤ (CANVAS_WIDTH : ℚ) - w ∧
        0 ≤ (find_insert_position bs tx ty w h p).2 ∧
        (find_insert_position bs tx ty w h p).2 ≤ (CANVAS_HEIGHT : ℚ) - h)
    ∧ (∀ (bs : List BoardObj) (w h p : ℚ) (pref : String), extract_bboxes bs ≠ [] →
        w ≤ (CANVAS_WIDTH : ℚ) → h ≤ (CANVAS_HEIGHT : ℚ) →
        0 ≤ (find_open_position bs w h p pref).1 ∧
          (find_open_position bs w h p pref).1 ≤ (CANVAS_WIDTH : ℚ) - w ∧
          0 ≤ (find_open_position bs w h p pref).2 ∧
          (find_open_position bs w h p pref).2 ≤ (CANVAS_HEIGHT : ℚ) - h)
    ∧ (∀ (bs : List BoardObj) (w h p : ℚ) (pref : String), extract_bboxes bs = [] →
        w ≤ (CANVAS_WIDTH : ℚ) - 100 → h ≤ (CANVAS_HEIGHT : ℚ) - 100 →
        0 ≤ (find_open_position bs w h p pref).1 ∧
          (find_open_position bs w h p pref).1 ≤ (CANVAS_WIDTH : ℚ) - w ∧
          0 ≤ (find_open_position bs w h p pref).2 ∧
          (find_open_position bs w h p pref).2 ≤ (CANVAS_HEIGHT : ℚ) - h) := by
  refine ⟨?_, ?_, ?_⟩
  · intro bs tx ty w h p hw hh
    obtain ⟨a, b, he⟩ := find_insert_position_shape bs tx ty w h p
    rw [he]
    exact clampPos_bounds w h a b hw hh
  · intro bs w h p pref hne hw hh
    obtain ⟨a, b, he⟩ := find_open_position_shape bs w h p pref hne
    rw [he]
    exact clampPos_bounds w h a b hw hh
  · intro bs w h p pref hnil hw hh
    have he : find_open_position bs w h p pref = (100, 100) := by
      unfold find_open_position
      rw [hnil]
    rw [he]
    dsimp only
    refine ⟨by norm_num, by linarith, by norm_num, by linarith⟩

/-- C2 witness: concrete instances of all three parts. -/
theorem C2_clamp_bounds_witness :
    (0 ≤ (find_insert_position [{ x := some 0, y := some 0, width := some 100, height := some 100 }] 0 0 100 100 20).1 ∧
      (find_insert_position [{ x := some 0, y := some 0, width := some 100, height := some 100 }] 0 0 100 100 20).1 ≤ (CANVAS_WIDTH : ℚ) - 100 ∧
      0 ≤ (find_insert_position [{ x := some 0, y := some 0, width := some 100, height := some 100 }] 0 0 100 100 20).2 ∧
      (find_insert_position [{ x := some 0, y := some 0, width := some 100, height := some 100 }] 0 0 100 100 20).2 ≤ (CANVAS_HEIGHT : ℚ) - 100)
    ∧ (0 ≤ (find_open_position [{ x := some 0, y := some 0, width := some 100, height := some 100 }] 100 100 40 "right").1 ∧
      (find_open_position [{ x := some 0, y := some 0, width := some 100, height := some 100 }] 100 100 40 "right").1 ≤ (CANVAS_WIDTH : ℚ) - 100 ∧
      0 ≤ (find_open_position [{ x := some 0, y := some 0, width := some 100, height := some 100 }] 100 100 40 "right").2 ∧
      (find_open_position [{ x := some 0, y := some 0, width := some 100, height := some 100 }] 100 100 40 "right").2 ≤ (CANVAS_HEIGHT : ℚ) - 100)
    ∧ (0 ≤ (find_open_position [] 100 100 40 "right").1 ∧
      (find_open_position [] 100 100 40 "right").1 ≤ (CANVAS_WIDTH : ℚ) - 100 ∧
      0 ≤ (find_open_position [] 100 100 40 "right").2 ∧
      (find_open_position [] 100 100 40 "right").2 ≤ (CANVAS_HEIGHT : ℚ) - 100) :=
  ⟨C2_clamp_bounds.1 [{ x := some 0, y := some 0, width := some 100, height := some 100 }] 0 0 100 100 20
      (by with_unfolding_all decide) (by with_unfolding_all decide),
   C2_clamp_bounds.2.1 [{ x := some 0, y := some 0, width := some 100, height := some 100 }] 100 100 40 "right"
      (by with_unfolding_all decide) (by with_unfolding_all decide) (by with_unfolding_all decide),
   C2_clamp_bounds.2.2 [] 100 100 40 "right" rfl
      (by with_unfolding_all decide) (by with_unfolding_all decide)⟩

/-- C2 counterexample: on an empty board `find_open_position` returns the
fixed anchor (100, 100) without clamping; with `needed_width = 3950` the
claimed bound `x ≤ CANVAS_WIDTH - width = 50` fails. -/
theorem C2_counterexample :
    find_open_position [] 3950 100 40 "right" = (100, 100)
    ∧ ¬ ((find_open_position [] 3950 100 40 "right").1 ≤ (CANVAS_WIDTH : ℚ) - 3950) := by
  with_unfolding_all decide

/-- C4: if the clamped target, or at least one of the 95 clamped ring-probe
positions (19 rings × 5 offsets), is overlap-free (with padding) against
every extracted box, then the position returned by `find_insert_position`
overlaps no extracted box. -/
theorem C4_insert_no_overlap (bs : List BoardObj) (tx ty w h p : ℚ)
    (hfree :
      (∀ b ∈ extract_bboxes bs,
          (BBox.mk (clampPos w h tx ty).1 (clampPos w h tx ty).2 w h).overlaps b p = false)
      ∨ ∃ d ∈ ringProbes (w + p),
          ∀ b ∈ extract_bboxes bs,
            (BBox.mk
              (clampPos w h ((clampPos w h tx ty).1 + d.1) ((clampPos w h tx ty).2 + d.2)).1
              (clampPos w h ((clampPos w h tx ty).1 + d.1) ((clampPos w h tx ty).2 + d.2)).2
              w h).overlaps b p = false) :
    ∀ b ∈ extract_bboxes bs,
      (BBox.mk (find_insert_position bs tx ty w h p).1 (find_insert_position bs tx ty w h p).2
        w h).overlaps b p = false := by
  unfold find_insert_position
  dsimp only
  split
  · rename_i hc
    intro b hb
    have hfalse := List.any_eq_false.mp (Bool.not_eq_true' .. ▸ hc) b hb
    simpa using hfalse
  · rename_i hc
    split
    · rename_i pr hpr
      intro b hb
      obtain ⟨d, hd, hfd⟩ := List.exists_of_findSome?_eq_some hpr
      split at hfd
      · rename_i hok
        injection hfd with hfd'
        rw [← hfd']
        have hfalse := List.any_eq_false.mp (Bool.not_eq_true' .. ▸ hok) b hb
        simpa using hfalse
      · cases hfd
    · rename_i hnone
      exfalso
      cases hfree with
      | inl hl =>
        have hany : ((extract_bboxes bs).any fun b =>
            (BBox.mk (clampPos w h tx ty).1 (clampPos w h tx ty).2 w h).overlaps b p) = true := by
          revert hc
          cases hq : (extract_bboxes bs).any fun b =>
              (BBox.mk (clampPos w h tx ty).1 (clampPos w h tx ty).2 w h).overlaps b p
          · intro hc
            exact absurd rfl hc
          · intro _
            rfl
        obtain ⟨x, hx, hpx⟩ := List.any_eq_true.mp hany
        rw [hl x hx] at hpx
        cases hpx
      | inr hr =>
        obtain ⟨d, hd, hdfree⟩ := hr
        have h0 := List.findSome?_eq_none_iff.mp hnone d hd
        split at h0
        · cases h0
        · rename_i hbad
          apply hbad
          have : ((extract_bboxes bs).any fun b =>
              (BBox.mk
                (clampPos w h ((clampPos w h tx ty).1 + d.1) ((clampPos w h tx ty).2 + d.2)).1
                (clampPos w h ((clampPos w h tx ty).1 + d.1) ((clampPos w h tx ty).2 + d.2)).2
                w h).overlaps b p) = false :=
            List.any_eq_false.mpr fun x hx => by
              rw [hdfree x hx]
              exact Bool.false_ne_true
          rw [this]
          rfl

/-- C4 witness: target directly on a 200×200 box at the origin; the ring-2
right probe (240, 0) is free and the returned position overlaps nothing. -/
theorem C4_insert_no_overlap_witness :
    (BBox.mk
        (find_insert_position [{ x := some 0, y := some 0, width := some 200, height := some 200 }] 0 0 100 100 20).1
        (find_insert_position [{ x := some 0, y := some 0, width := some 200, height := some 200 }] 0 0 100 100 20).2
        100 100).overlaps ⟨0, 0, 200, 200⟩ 20 = false :=
  C4_insert_no_overlap [{ x := some 0, y := some 0, width := some 200, height := some 200 }]
    0 0 100 100 20 (by with_unfolding_all decide) ⟨0, 0, 200, 200⟩ (by with_unfolding_all decide)

/-- A board action with the client-correlation `temp_id` field removed. -/
def eraseAction (a : BoardAction) : String × String × Option String × Props :=
  (a.action, a.object_type, a.object_id, a.props)

/-- A route result with the `trace_id` field removed and `temp_id` removed
from every action. -/
def eraseResult (r : RouteResult) :
    String × List (String × String × Option String × Props) × List String × Bool :=
  (r.message, r.actions.map eraseAction, r.actions_performed, r.fit_to_view)

/-- The ids present in a board state. -/
def boardIds (bs : List BoardObj) : List String := bs.filterMap (·.id)

/-- C7: the deterministic router is a pure function of `(command,
board_state)`: two invocations with the same command and board state give
structurally equal results — same match/no-match outcome, message,
`fit_to_view`, `actions_performed` and action lists — once the randomly
generated `temp_id` and `trace_id` fields are erased, for any board ids,
trace ids and uuid draws. -/
theorem C7_router_determinism (command : String) (bs : List BoardObj)
    (bid1 bid2 tid1 tid2 u1 u2 : String) :
    Option.map eraseResult (try_deterministic_route command bs bid1 tid1 u1)
      = Option.map eraseResult (try_deterministic_route command bs bid2 tid2 u2) := by
  unfold try_deterministic_route
  dsimp only
  split
  · rfl
  · cases hs : stickyParse (selInfo command).2.2 with
    | none =>
      dsimp only
      split
      · split
        · rfl
        · cases hrc : recolorParse (selInfo command).2.2 <;> rfl
      · rfl
    | some pr =>
      dsimp only
      by_cases hemp : (stripSet isQuote (stripChars pr.2)).isEmpty = true
      · rw [if_pos hemp, if_pos hemp]
        dsimp only
        split
        · split
          · rfl
          · cases hrc : recolorParse (selInfo command).2.2 <;> rfl
        · rfl
      · rw [if_neg hemp, if_neg hemp]
        rfl

/-- C3 (amended): every `update` or `delete` action the router emits carries
an `object_id` equal to the id captured from the `[Selected object: ...]`
marker prefix of the command; the router does not validate that id against
`board_state` (see the counterexample), so the claimed membership holds
exactly when the caller supplies a marker id that occurs in the board. -/
theorem C3_object_id_from_marker (command : String) (bs : List BoardObj)
    (bid tid u : String) (r : RouteResult) (a : BoardAction)
    (hr : try_deterministic_route command bs bid tid u = some r)
    (ha : a ∈ r.actions)
    (hact : a.action = "update" ∨ a.action = "delete") :
    ∃ pr, selParse (stripChars command.data) = some pr ∧ a.object_id = some pr.1 := by
  unfold try_deterministic_route selInfo at hr
  cases hsel : selParse (stripChars command.data) with
  | none =>
    rw [hsel] at hr
    dsimp only at hr
    split at hr
    · injection hr with h
      subst h
      simp at ha
    · cases hs : stickyParse (stripChars command.data) with
      | none =>
        rw [hs] at hr
        dsimp only at hr
        rw [if_neg (by simp)] at hr
        cases hr
      | some spr =>
        rw [hs] at hr
        dsimp only at hr
        by_cases hemp : (stripSet isQuote (stripChars spr.2)).isEmpty = true
        · rw [if_pos hemp] at hr
          dsimp only at hr
          rw [if_neg (by simp)] at hr
          cases hr
        · rw [if_neg hemp] at hr
          dsimp only at hr
          injection hr with h
          subst h
          simp at ha
          subst ha
          rcases hact with h | h <;> simp at h
  | some pr0 =>
    obtain ⟨i, ty, rest⟩ := pr0
    rw [hsel] at hr
    dsimp only at hr
    split at hr
    · injection hr with h
      subst h
      simp at ha
    · have hfall :
          (if i ≠ "" then
            (if deleteMatch rest then
              some { message := "Done! Deleted the object.",
                     actions := [{ action := "delete",
                                   object_type := if ty = "" then "sticky" else ty,
                                   object_id := some i }],
                     actions_performed := ["delete_object"], trace_id := tid,
                     fit_to_view := false }
            else
              match recolorParse rest with
              | some ckw =>
                some { message := "Done! Changed the color to " ++ ckw ++ ".",
                       actions := [{ action := "update",
                                     object_type := if ty = "" then "sticky" else ty,
                                     object_id := some i,
                                     props := { color := some (colorGet ckw),
                                                fill := some (colorGet ckw) } }],
                       actions_performed := ["update_object"], trace_id := tid,
                       fit_to_view := false }
              | none => none)
          else none) = some r →
          ∃ pr, (some (i, ty, rest) : Option (String × String × List Char)) = some pr
            ∧ a.object_id = some pr.1 := by
        intro hr2
        split at hr2
        · split at hr2
          · injection hr2 with h
            subst h
            simp at ha
            subst ha
            exact ⟨(i, ty, rest), rfl, rfl⟩
          · cases hrc : recolorParse rest <;> rw [hrc] at hr2
            · cases hr2
            · injection hr2 with h
              subst h
              simp at ha
              subst ha
              exact ⟨(i, ty, rest), rfl, rfl⟩
        · cases hr2
      cases hs : stickyParse rest with
      | none =>
        rw [hs] at hr
        dsimp only at hr
        exact hfall hr
      | some spr =>
        rw [hs] at hr
        dsimp only at hr
        by_cases hemp : (stripSet isQuote (stripChars spr.2)).isEmpty = true
        · rw [if_pos hemp] at hr
          dsimp only at hr
          exact hfall hr
        · rw [if_neg hemp] at hr
          dsimp only at hr
          injection hr with h
          subst h
          simp at ha
          subst ha
          rcases hact with h | h <;> simp at h

/-- C3 witness: a delete on a selected object whose id does occur in the
board carries exactly that id. -/
theorem C3_object_id_from_marker_witness :
    ∃ pr, selParse (stripChars ("[Selected object: id=n1, type=rect] delete it").data) = some pr
      ∧ (BoardAction.mk "delete" "rect" none (some "n1") {}).object_id = some pr.1 :=
  C3_object_id_from_marker "[Selected object: id=n1, type=rect] delete it"
    [{ id := some "n1", type := some "rect", x := some 0, y := some 0,
       width := some 50, height := some 50 }] "b" "t" "u"
    { message := "Done! Deleted the object.",
      actions := [{ action := "delete", object_type := "rect", object_id := some "n1" }],
      actions_performed := ["delete_object"], trace_id := "t", fit_to_view := false }
    { action := "delete", object_type := "rect", object_id := some "n1" }
    (by with_unfolding_all decide) (by with_unfolding_all decide) (Or.inr rfl)

/-- C3 counterexample: the command carries a marker id `ghost` that occurs
nowhere in the (empty) board state, yet the router emits a delete action
with `object_id = "ghost"`. -/
theorem C3_counterexample :
    try_deterministic_route "[Selected object: id=ghost, type=sticky] delete this" [] "b" "t" "u"
      = some { message := "Done! Deleted the object.",
               actions := [{ action := "delete", object_type := "sticky", object_id := some "ghost" }],
               actions_performed := ["delete_object"], trace_id := "t", fit_to_view := false }
    ∧ boardIds [] = [] := by
  with_unfolding_all decide

/-- C5: color mapping closure.  Every `create` action the router emits
carries `props.color = _COLOR_MAP.get(kw, "#FEF08A")` for the color keyword
`kw` captured by the sticky pattern (so an absent keyword yields the yellow
default `#FEF08A`, and an unrecognized keyword cannot be captured at all);
every `update` action sets both `color` and `fill` to the mapped hex of the
captured recolor keyword; and, concretely, for every keyword of the fixed
table the sticky-creation and recolor paths emit exactly the mapped hex,
while a colorless creation emits `#FEF08A`. -/
theorem C5_color_mapping :
    (∀ (command : String) (bs : List BoardObj) (bid tid u : String)
        (r : RouteResult) (a : BoardAction),
      try_deterministic_route command bs bid tid u = some r → a ∈ r.actions →
      a.action = "create" →
      ∃ pr, stickyParse (selInfo command).2.2 = some pr
        ∧ a.props.color = some (colorGet (pr.1.getD "")))
    ∧ (∀ (command : String) (bs : List BoardObj) (bid tid u : String)
        (r : RouteResult) (a : BoardAction),
      try_deterministic_route command bs bid tid u = some r → a ∈ r.actions →
      a.action = "update" →
      ∃ ckw, recolorParse (selInfo command).2.2 = some ckw
        ∧ a.props.color = some (colorGet ckw) ∧ a.props.fill = some (colorGet ckw))
    ∧ (∀ kv ∈ COLOR_MAP,
      Option.map (fun r => r.actions.map fun a => a.props.color)
          (try_deterministic_route ("create a " ++ kv.1 ++ " sticky saying hi") [] "b" "t" "u")
        = some [some kv.2]
      ∧ Option.map (fun r => r.actions.map fun a => (a.props.color, a.props.fill))
          (try_deterministic_route ("[Selected object: id=o1, type=sticky] make it " ++ kv.1) [] "b" "t" "u")
        = some [(some kv.2, some kv.2)])
    ∧ Option.map (fun r => r.actions.map fun a => a.props.color)
        (try_deterministic_route "create a sticky saying hi" [] "b" "t" "u")
      = some [some "#FEF08A"] := by
  refine ⟨?_, ?_, by with_unfolding_all decide, by with_unfolding_all decide⟩
  · intro command bs bid tid u r a hr ha hact
    unfold try_deterministic_route at hr
    dsimp only at hr
    split at hr
    · injection hr with h
      subst h
      simp at ha
    · cases hs : stickyParse (selInfo command).2.2 with
      | none =>
        rw [hs] at hr
        dsimp only at hr
        split at hr
        · split at hr
          · injection hr with h
            subst h
            simp at ha
            subst ha
            simp at hact
          · cases hrc : recolorParse (selInfo command).2.2 <;> rw [hrc] at hr
            · cases hr
            · injection hr with h
              subst h
              simp at ha
              subst ha
              simp at hact
        · cases hr
      | some spr =>
        rw [hs] at hr
        dsimp only at hr
        by_cases hemp : (stripSet isQuote (stripChars spr.2)).isEmpty = true
        · rw [if_pos hemp] at hr
          dsimp only at hr
          split at hr
          · split at hr
            · injection hr with h
              subst h
              simp at ha
              subst ha
              simp at hact
            · cases hrc : recolorParse (selInfo command).2.2 <;> rw [hrc] at hr
              · cases hr
              · injection hr with h
                subst h
                simp at ha
                subst ha
                simp at hact
          · cases hr
        · rw [if_neg hemp] at hr
          dsimp only at hr
          injection hr with h
          subst h
          simp at ha
          subst ha
          exact ⟨spr, rfl, rfl⟩
  · intro command bs bid tid u r a hr ha hact
    unfold try_deterministic_route at hr
    dsimp only at hr
    split at hr
    · injection hr with h
      subst h
      simp at ha
    · cases hs : stickyParse (selInfo command).2.2 with
      | none =>
        rw [hs] at hr
        dsimp only at hr
        split at hr
        · split at hr
          · injection hr with h
            subst h
            simp at ha
            subst ha
            simp at hact
          · cases hrc : recolorParse (selInfo command).2.2 <;> rw [hrc] at hr
            · cases hr
            · injection hr with h
              subst h
              simp at ha
              subst ha
              exact ⟨_, rfl, rfl, rfl⟩
        · cases hr
      | some spr =>
        rw [hs] at hr
        dsimp only at hr
        by_cases hemp : (stripSet isQuote (stripChars spr.2)).isEmpty = true
        · rw [if_pos hemp] at hr
          dsimp only at hr
          split at hr
          · split at hr
            · injection hr with h
              subst h
              simp at ha
              subst ha
              simp at hact
            · cases hrc : recolorParse (selInfo command).2.2 <;> rw [hrc] at hr
              · cases hr
              · injection hr with h
                subst h
                simp at ha
                subst ha
                exact ⟨_, rfl, rfl, rfl⟩
          · cases hr
        · rw [if_neg hemp] at hr
          dsimp only at hr
          injection hr with h
          subst h
          simp at ha
          subst ha
          simp at hact

/-- C5 witness: a white sticky-creation command on an empty board; its
create action's color is the hex the captured keyword maps to. -/
theorem C5_color_mapping_witness :
    ∃ pr, stickyParse (selInfo "put a white sticky saying ok").2.2 = some pr
      ∧ (BoardAction.mk "create" "sticky" (some "sticky-u") none
          { text := some "ok", x := some 100, y := some 100, width := some 160,
            height := some 100, color := some "#FFFFFF", font_size := some 16,
            rotation := some 0 }).props.color = some (colorGet (pr.1.getD "")) :=
  C5_color_mapping.1 "put a white sticky saying ok" [] "b" "t" "u"
    { message := "Done! Created a sticky note: \"ok\"",
      actions := [{ action := "create", object_type := "sticky", temp_id := some "sticky-u",
                    props := { text := some "ok", x := some 100, y := some 100,
                               width := some 160, height := some 100,
                               color := some "#FFFFFF", font_size := some 16,
                               rotation := some 0 } }],
      actions_performed := ["create_sticky_note: sticky"], trace_id := "t",
      fit_to_view := false }
    { action := "create", object_type := "sticky", temp_id := some "sticky-u",
      props := { text := some "ok", x := some 100, y := some 100, width := some 160,
                 height := some 100, color := some "#FFFFFF", font_size := some 16,
                 rotation := some 0 } }
    (by with_unfolding_all decide) (by with_unfolding_all decide) rfl

end CollabBoard
